import Mathlib

/-!
Shallow embedding of `validate-config.py` (Aalaya configuration validator).

The program is a checklist runner: a `ConfigValidator` object accumulates
three lists of messages (`errors`, `warnings`, `info`) while seven checks
inspect a project directory, then `validate_all` prints a report and returns
a boolean success signal (`False` iff at least one error was recorded), which
`main` turns into the process exit code.

The filesystem is modelled abstractly, at the granularity at which the
program observes it: a predicate for `Path.exists()`, a text-read outcome for
`open(...).read` line iteration (success with the full content, or an
exception carrying a message), and a JSON-read outcome for
`json.load(open(...))` (a parsed JSON value, a `json.JSONDecodeError`, or any
other exception).  JSON numbers are modelled as integers; no claim touches
numeric payloads.
-/

namespace Aalaya

/-- One message list per severity, mirroring `self.errors`, `self.warnings`,
`self.info` of `ConfigValidator`. -/
structure Validator where
  errors : List String
  warnings : List String
  info : List String
deriving DecidableEq, Repr

/-- The freshly constructed `ConfigValidator` (all three lists empty). -/
def Validator.empty : Validator := ⟨[], [], []⟩

/-- `self.errors.append(msg)` -/
def Validator.addError (v : Validator) (m : String) : Validator :=
  { v with errors := v.errors ++ [m] }

/-- `self.warnings.append(msg)` -/
def Validator.addWarning (v : Validator) (m : String) : Validator :=
  { v with warnings := v.warnings ++ [m] }

/-- `self.info.append(msg)` -/
def Validator.addInfo (v : Validator) (m : String) : Validator :=
  { v with info := v.info ++ [m] }

/-- Outcome of reading a text file: the full content, or an exception
(carrying the text that Python would interpolate for `{e}`). -/
inductive ReadTextResult where
  | ok (content : String)
  | exc (msg : String)
deriving DecidableEq, Repr

/-- JSON values as produced by `json.load`. -/
inductive JValue where
  | null : JValue
  | bool : Bool → JValue
  | num : Int → JValue
  | str : String → JValue
  | arr : List JValue → JValue
  | obj : List (String × JValue) → JValue

/-- Outcome of `json.load(open(path))`: a parsed value, a
`json.JSONDecodeError`, or any other exception. -/
inductive ReadJsonResult where
  | ok (v : JValue)
  | decodeError
  | exc (msg : String)

/-- The project directory, viewed from `project_root`, at the granularity the
program observes it.  Paths are the relative path strings the source joins to
`self.project_root`. -/
structure FS where
  pathExists : String → Bool
  readText : String → ReadTextResult
  readJson : String → ReadJsonResult

/-! ### Models of the Python primitives the source calls -/

/-- Model of Python `c in s` for a single-character needle. -/
def containsChar (s : String) (c : Char) : Bool := s.data.contains c

/-- Strip leading and trailing whitespace from a character list. -/
def stripChars (l : List Char) : List Char :=
  ((l.dropWhile Char.isWhitespace).reverse.dropWhile Char.isWhitespace).reverse

/-- Model of Python `s.strip()` (whitespace as judged by
`Char.isWhitespace`). -/
def pyStrip (s : String) : String := String.mk (stripChars s.data)

/-- Model of Python `s.startswith(pre)`. -/
def pyStartsWith (s : String) (pre : String) : Bool := pre.data.isPrefixOf s.data

/-- Split a character list at every newline character. -/
def splitLinesAux : List Char → List (List Char)
  | [] => [[]]
  | c :: cs =>
    if c == '\n' then [] :: splitLinesAux cs
    else
      match splitLinesAux cs with
      | h :: t => (c :: h) :: t
      | [] => [[c]]

/-- Model of Python's `for line in f` iteration: the file content split at
newlines (each produced line is immediately stripped by the loop body, so
whether the terminator is kept is immaterial). -/
def splitLines (s : String) : List String := (splitLinesAux s.data).map String.mk

/-- First-separator split on a character list: `some (before, after)` when the
separator occurs, splitting at its first occurrence. -/
def splitFirstAux (sep : Char) : List Char → Option (List Char × List Char)
  | [] => none
  | c :: cs =>
    if c == sep then some ([], cs)
    else
      match splitFirstAux sep cs with
      | some (a, b) => some (c :: a, b)
      | none => none

/-- Model of Python `s.split(sep, 1)` unpacked into a pair (the source only
calls it under a guard that `sep` occurs in `s`; the no-separator fallback
`(s, "")` is never reached there). -/
def pySplit1 (sep : Char) (s : String) : String × String :=
  match splitFirstAux sep s.data with
  | some (a, b) => (String.mk a, String.mk b)
  | none => (s, "")

/-- Model of Python dict lookup on an association list whose keys are unique
(the invariant `dictInsert` maintains). -/
def dictLookup (d : List (String × String)) (k : String) : Option String :=
  (d.find? (fun p => p.1 == k)).map (fun p => p.2)

/-- Model of Python `d[k] = v` on a dict with unique keys (the invariant
every dict built by the env parser satisfies, starting from `{}`): replace
the value in place when the key is present, append otherwise — preserving
insertion order and size exactly as `dict` assignment does. -/
def dictInsert : List (String × String) → String → String → List (String × String)
  | [], k, v => [(k, v)]
  | p :: tl, k, v => if p.1 == k then (k, v) :: tl else p :: dictInsert tl k v

/-! ### Check 1: `validate_env_file` -/

/-- `required_vars` of `validate_env_file`. -/
def required_vars : List String :=
  ["API_BASE_URL_PROD", "MAPBOX_ACCESS_TOKEN_PROD", "FIREBASE_PROJECT_ID_PROD"]

/-- The exact-match placeholder list of `validate_env_file`. -/
def placeholder_values : List String := ["", "your_placeholder_value", "placeholder"]

/-- The body of the `for line in f` loop: strip the line; if it is non-empty,
not a comment, and contains `=`, split at the first `=` and store the stripped
key/value pair in the dict. -/
def parseEnvLine (d : List (String × String)) (raw : String) : List (String × String) :=
  let line := pyStrip raw
  if !line.data.isEmpty && !pyStartsWith line "#" && containsChar line '=' then
    let kv := pySplit1 '=' line
    dictInsert d (pyStrip kv.1) (pyStrip kv.2)
  else d

/-- The whole read loop of `validate_env_file`. -/
def parseEnvContent (content : String) : List (String × String) :=
  (splitLines content).foldl parseEnvLine []

/-- The per-required-variable step of `validate_env_file`'s final loop. -/
def envVarStep (env_vars : List (String × String)) (v : Validator) (var : String) : Validator :=
  match dictLookup env_vars var with
  | none => v.addWarning ("Required variable " ++ var ++ " not found in .env")
  | some value =>
    if placeholder_values.contains value then
      v.addWarning ("Variable " ++ var ++ " has placeholder value")
    else v

/-- `ConfigValidator.validate_env_file`. -/
def validate_env_file (fs : FS) (v : Validator) : Validator :=
  if !fs.pathExists ".env" then
    if fs.pathExists ".env.template" then
      v.addWarning "No .env file found. Copy .env.template to .env and fill in your values."
    else
      v.addError "Neither .env nor .env.template file found!"
  else
    let v := v.addInfo "✓ .env file found"
    match fs.readText ".env" with
    | .exc e => v.addError ("Error reading .env file: " ++ e)
    | .ok content =>
      let env_vars := parseEnvContent content
      let v := required_vars.foldl (envVarStep env_vars) v
      v.addInfo ("✓ Found " ++ toString env_vars.length ++ " environment variables")

/-! ### Check 2: `validate_firebase_config` -/

mutual

/-- Python `repr` of a JSON value (used by `str` on containers). -/
def pyRepr : JValue → String
  | .null => "None"
  | .bool true => "True"
  | .bool false => "False"
  | .num n => toString n
  | .str s => "\x27" ++ s ++ "\x27"
  | .arr xs => "[" ++ String.intercalate ", " (pyReprList xs) ++ "]"
  | .obj fields => "\x7b" ++ String.intercalate ", " (pyReprFields fields) ++ "\x7d"

/-- `repr` of the elements of a JSON array. -/
def pyReprList : List JValue → List String
  | [] => []
  | x :: xs => pyRepr x :: pyReprList xs

/-- `repr` of the key/value pairs of a JSON object. -/
def pyReprFields : List (String × JValue) → List String
  | [] => []
  | (k, x) :: xs => ("\x27" ++ k ++ "\x27: " ++ pyRepr x) :: pyReprFields xs

end

/-- Python `str` of a JSON value, as interpolated by the f-string
`f"✓ Firebase project ID: \x7bproject_id\x7d"`. -/
def pyStr : JValue → String
  | .str s => s
  | .arr xs => pyRepr (.arr xs)
  | .obj fields => pyRepr (.obj fields)
  | .null => "None"
  | .bool true => "True"
  | .bool false => "False"
  | .num n => toString n

/-- Python `x == s` for a JSON value against a string literal: only an equal
string compares equal; every other JSON value differs. -/
def pyEqStr (x : JValue) (s : String) : Bool :=
  match x with
  | .str t => t == s
  | _ => false

/-- Dict lookup on the fields of a JSON object (keys unique after
`json.load`). -/
def jlookup (fields : List (String × JValue)) (key : String) : Option JValue :=
  (fields.find? (fun p => p.1 == key)).map (fun p => p.2)

/-- Substring containment on character lists (Python `needle in haystack` for
strings). -/
def substrList (needle : List Char) : List Char → Bool
  | [] => needle.isEmpty
  | c :: cs => needle.isPrefixOf (c :: cs) || substrList needle cs

/-- Python `key in config`: membership for dicts, element equality for lists,
substring containment for strings; a `TypeError` for every other JSON
value. -/
def pyIn (config : JValue) (key : String) : Except String Bool :=
  match config with
  | .obj fields => .ok (jlookup fields key).isSome
  | .arr xs => .ok (xs.any (fun x => pyEqStr x key))
  | .str s => .ok (substrList key.data s.data)
  | _ => .error "argument of type is not iterable"

/-- Python `config[key]`: dict subscript; a `TypeError` on any other JSON
value when the subscript is a string. -/
def pySubscript (config : JValue) (key : String) : Except String JValue :=
  match config with
  | .obj fields =>
    match jlookup fields key with
    | some v => .ok v
    | none => .error "KeyError"
  | _ => .error "indices must be integers"

/-- Python `x.get(key, dflt)`: defined on dicts only; an `AttributeError` on
every other JSON value. -/
def pyGet (x : JValue) (key : String) (dflt : JValue) : Except String JValue :=
  match x with
  | .obj fields => .ok ((jlookup fields key).getD dflt)
  | _ => .error "object has no attribute get"

/-- Python truthiness of a JSON value (`if project_id`). -/
def truthy : JValue → Bool
  | .null => false
  | .bool b => b
  | .num n => n != 0
  | .str s => !s.data.isEmpty
  | .arr xs => !xs.isEmpty
  | .obj fields => !fields.isEmpty

/-- What the structural block of `validate_firebase_config` decides to
append. -/
inductive FbMsg where
  | infoProjectId (pid : JValue)
  | warnPlaceholder
  | warnInvalidStructure

/-- The structural block of `validate_firebase_config` (everything inside the
`try` after `json.load` succeeded).  A `.error` models an exception raised by
one of the Python primitives, which the `except Exception` clause turns into
a warning. -/
def firebaseStructure (config : JValue) : Except String FbMsg := do
  let b1 ← pyIn config "project_info"
  if b1 then
    let b2 ← pyIn config "client"
    if b2 then
      let pinfo ← pySubscript config "project_info"
      let pid ← pyGet pinfo "project_id" (.str "")
      if truthy pid && !pyEqStr pid "aalay-student-housing" then
        pure (.infoProjectId pid)
      else
        pure .warnPlaceholder
    else
      pure .warnInvalidStructure
  else
    pure .warnInvalidStructure

/-- `ConfigValidator.validate_firebase_config`. -/
def validate_firebase_config (fs : FS) (v : Validator) : Validator :=
  if !fs.pathExists "app/google-services.json" then
    if fs.pathExists "app/google-services.json.template" then
      v.addWarning "No google-services.json found. Copy template and configure with your Firebase project."
    else
      v.addWarning "No Firebase configuration found!"
  else
    let v := v.addInfo "✓ google-services.json found"
    match fs.readJson "app/google-services.json" with
    | .decodeError => v.addError "google-services.json is not valid JSON"
    | .exc e => v.addWarning ("Could not validate google-services.json: " ++ e)
    | .ok config =>
      match firebaseStructure config with
      | .ok (.infoProjectId pid) => v.addInfo ("✓ Firebase project ID: " ++ pyStr pid)
      | .ok .warnPlaceholder => v.addWarning "Firebase project_id appears to be a placeholder"
      | .ok .warnInvalidStructure => v.addWarning "google-services.json has invalid structure"
      | .error e => v.addWarning ("Could not validate google-services.json: " ++ e)

/-! ### Checks 3-7: fixed-list presence checks -/

/-- The shared shape of the five presence checks: a `for file_path in ...`
loop appending an info message when the path exists and otherwise an error or
a warning built by `missingMsg`, according to the check's severity. -/
def presenceFold (fs : FS) (missingMsg : String → String) (missingIsError : Bool)
    (paths : List String) (v : Validator) : Validator :=
  paths.foldl
    (fun v p =>
      if fs.pathExists p then v.addInfo ("✓ " ++ p ++ " found")
      else if missingIsError then v.addError (missingMsg p)
      else v.addWarning (missingMsg p))
    v

/-- `required_files` of `validate_build_files`. -/
def build_files : List String :=
  ["build.gradle", "app/build.gradle", "settings.gradle", "gradle.properties",
   "env-loader.gradle"]

/-- `security_files` of `validate_security_files`. -/
def security_files : List String :=
  ["app/src/main/res/xml/network_security_config.xml",
   "app/src/main/res/xml/backup_rules.xml",
   "app/src/main/res/xml/data_extraction_rules.xml",
   "app/proguard-rules.pro"]

/-- `critical_files` of `validate_source_files`. -/
def critical_files : List String :=
  ["utils/ConfigManager.kt", "utils/SecurityConfig.kt", "di/NetworkModule.kt",
   "AalayApplication.kt"]

/-- `doc_files` of `validate_documentation`. -/
def doc_files : List String := ["README.md", "DEPLOYMENT.md", ".gitignore"]

/-- `ci_files` of `validate_ci_cd`. -/
def ci_files : List String := [".github/workflows/android-ci.yml"]

/-- `ConfigValidator.validate_build_files`. -/
def validate_build_files (fs : FS) (v : Validator) : Validator :=
  presenceFold fs (fun p => "Required build file missing: " ++ p) true build_files v

/-- `ConfigValidator.validate_security_files`. -/
def validate_security_files (fs : FS) (v : Validator) : Validator :=
  presenceFold fs (fun p => "Security file missing: " ++ p) false security_files v

/-- `ConfigValidator.validate_source_files`. -/
def validate_source_files (fs : FS) (v : Validator) : Validator :=
  presenceFold fs (fun p => "Critical source file missing: " ++ p) true critical_files v

/-- `ConfigValidator.validate_documentation`. -/
def validate_documentation (fs : FS) (v : Validator) : Validator :=
  presenceFold fs (fun p => "Documentation file missing: " ++ p) false doc_files v

/-- `ConfigValidator.validate_ci_cd`. -/
def validate_ci_cd (fs : FS) (v : Validator) : Validator :=
  presenceFold fs (fun p => "CI/CD file missing: " ++ p) false ci_files v

/-! ### The runner and the exit code -/

/-- The message-accumulating part of `ConfigValidator.validate_all`: the seven
checks run unconditionally, in source order, on a fresh validator. -/
def validate_all (fs : FS) : Validator :=
  validate_ci_cd fs
    (validate_documentation fs
      (validate_source_files fs
        (validate_security_files fs
          (validate_build_files fs
            (validate_firebase_config fs
              (validate_env_file fs Validator.empty))))))

/-- The summary percentage `len(info) / total * 100` (0 when there are no
messages at all), computed exactly over ℚ. -/
def success_rate (v : Validator) : ℚ :=
  let total := v.info.length + v.warnings.length + v.errors.length
  if 0 < total then (v.info.length : ℚ) / (total : ℚ) * 100 else 0

/-- The boolean `validate_all` returns: `False` iff any error was recorded
(the warnings branch also returns `True`). -/
def validate_all_result (fs : FS) : Bool :=
  let v := validate_all fs
  if !v.errors.isEmpty then false
  else if !v.warnings.isEmpty then true
  else true

/-- `main`: `sys.exit(0 if success else 1)`. -/
def exit_code (fs : FS) : Nat :=
  if validate_all_result fs then 0 else 1

/-! ### Specification-side auxiliary definitions -/

/-- Bucket-wise concatenation of two message accumulators; used to state that
every check only appends messages. -/
def vappend (v w : Validator) : Validator :=
  ⟨v.errors ++ w.errors, v.warnings ++ w.warnings, v.info ++ w.info⟩

/-- The warning (if any) that the required-variable loop emits for one
variable, given the parsed key-value map. -/
def envWarnOf (env_vars : List (String × String)) (var : String) : Option String :=
  match dictLookup env_vars var with
  | none => some ("Required variable " ++ var ++ " not found in .env")
  | some value =>
    if placeholder_values.contains value then
      some ("Variable " ++ var ++ " has placeholder value")
    else none

/-- A JSON value is an object carrying the given top-level key. -/
def hasKey (config : JValue) (key : String) : Bool :=
  match config with
  | .obj fields => (jlookup fields key).isSome
  | _ => false

/-! ### Concrete project directories used by the witnesses -/

/-- Concrete project directories exercising claim C2: one with only the
template, one with neither file. -/
def fsOnlyTemplate : FS where
  pathExists := fun p => p == ".env.template"
  readText := fun _ => .exc "unused"
  readJson := fun _ => .exc "unused"

/-- A completely empty project directory. -/
def fsEmptyDir : FS where
  pathExists := fun _ => false
  readText := fun _ => .exc "unused"
  readJson := fun _ => .exc "unused"

/-- A directory whose credential file exists but holds malformed JSON. -/
def fsBadJson : FS where
  pathExists := fun p => p == "app/google-services.json"
  readText := fun _ => .exc "unused"
  readJson := fun _ => .decodeError

/-- A directory whose env file has one placeholder value, one real value, and
one required variable missing. -/
def fsEnvMixed : FS where
  pathExists := fun p => p == ".env"
  readText := fun p =>
    if p == ".env" then
      .ok "API_BASE_URL_PROD=placeholder\nMAPBOX_ACCESS_TOKEN_PROD=pk.live.1234"
    else .exc "unused"
  readJson := fun _ => .exc "unused"

/-- A directory whose credential file parses but lacks the `project_info`
key. -/
def fsNoProjectInfo : FS where
  pathExists := fun p => p == "app/google-services.json"
  readText := fun _ => .exc "unused"
  readJson := fun p =>
    if p == "app/google-services.json" then .ok (.obj [("client", .null)])
    else .exc "unused"

/-- A directory whose credential file has both top-level keys but an empty
`project_info` object, so the discovered project id defaults to `""`. -/
def fsEmptyProjectInfo : FS where
  pathExists := fun p => p == "app/google-services.json"
  readText := fun _ => .exc "unused"
  readJson := fun p =>
    if p == "app/google-services.json" then
      .ok (.obj [("project_info", .obj []), ("client", .null)])
    else .exc "unused"

/-- A directory whose credential file carries a genuine project id. -/
def fsRealProject : FS where
  pathExists := fun p => p == "app/google-services.json"
  readText := fun _ => .exc "unused"
  readJson := fun p =>
    if p == "app/google-services.json" then
      .ok (.obj [("project_info", .obj [("project_id", .str "prod-app-1234")]),
                 ("client", .arr [])])
    else .exc "unused"

/-- A directory whose credential file spells the project id as the literal
empty string. -/
def fsBlankProjectId : FS where
  pathExists := fun p => p == "app/google-services.json"
  readText := fun _ => .exc "unused"
  readJson := fun p =>
    if p == "app/google-services.json" then
      .ok (.obj [("project_info", .obj [("project_id", .str "")]), ("client", .obj [])])
    else .exc "unused"

/-- A directory where both the env file and the credential file exist but
reading either raises an exception. -/
def fsUnreadable : FS where
  pathExists := fun p => p == ".env" || p == "app/google-services.json"
  readText := fun _ => .exc "disk failure"
  readJson := fun _ => .exc "permission denied"

/-- Every path whose existence the seven checks test (templates aside). -/
def all_checked_paths : List String :=
  [".env", "app/google-services.json"] ++ build_files ++ security_files ++
    critical_files ++ doc_files ++ ci_files

/-- A fully configured project directory: every checked path present, a
readable env file with the three required variables set to distinct real
values, and a credential file with a genuine project id. -/
def fsAllGood : FS where
  pathExists := fun p => all_checked_paths.contains p
  readText := fun p =>
    if p == ".env" then
      .ok ("API_BASE_URL_PROD=https://api.example.com\nMAPBOX_ACCESS_TOKEN_PROD=pk.live.1234\nFIREBASE_PROJECT_ID_PROD=prod-app-1234")
    else .exc "unused"
  readJson := fun p =>
    if p == "app/google-services.json" then
      .ok (.obj [("project_info", .obj [("project_id", .str "prod-app-1234")]),
                 ("client", .arr [])])
    else .exc "unused"

/-! ### Helper lemmas -/

theorem addError_def (v : Validator) (m : String) :
    v.addError m = ⟨v.errors ++ [m], v.warnings, v.info⟩ := rfl

theorem addWarning_def (v : Validator) (m : String) :
    v.addWarning m = ⟨v.errors, v.warnings ++ [m], v.info⟩ := rfl

theorem addInfo_def (v : Validator) (m : String) :
    v.addInfo m = ⟨v.errors, v.warnings, v.info ++ [m]⟩ := rfl

theorem vappend_empty_left (v : Validator) : vappend Validator.empty v = v := by
  cases v; simp [vappend, Validator.empty]

theorem vappend_empty_right (v : Validator) : vappend v Validator.empty = v := by
  cases v; simp [vappend, Validator.empty]

theorem vappend_assoc (u v w : Validator) :
    vappend (vappend u v) w = vappend u (vappend v w) := by
  simp [vappend]

theorem addError_vappend (v : Validator) (m : String) :
    v.addError m = vappend v (Validator.empty.addError m) := by
  cases v; simp [Validator.addError, vappend, Validator.empty]

theorem addWarning_vappend (v : Validator) (m : String) :
    v.addWarning m = vappend v (Validator.empty.addWarning m) := by
  cases v; simp [Validator.addWarning, vappend, Validator.empty]

theorem addInfo_vappend (v : Validator) (m : String) :
    v.addInfo m = vappend v (Validator.empty.addInfo m) := by
  cases v; simp [Validator.addInfo, vappend, Validator.empty]

/-- A fold whose step only appends messages (with a contribution independent
of the accumulator) factors through `vappend`. -/
theorem foldl_vappend {α : Type} (step : Validator → α → Validator)
    (hstep : ∀ v x, step v x = vappend v (step Validator.empty x)) :
    ∀ (l : List α) (v : Validator),
      l.foldl step v = vappend v (l.foldl step Validator.empty) := by
  intro l
  induction l with
  | nil => intro v; simp [vappend_empty_right]
  | cons x l ih =>
    intro v
    simp only [List.foldl_cons]
    rw [ih (step v x), ih (step Validator.empty x), hstep v x, vappend_assoc]

theorem envVarStep_vappend (env_vars : List (String × String)) (v : Validator) (var : String) :
    envVarStep env_vars v var = vappend v (envVarStep env_vars Validator.empty var) := by
  unfold envVarStep
  cases hd : dictLookup env_vars var with
  | none => simp [Validator.addWarning, vappend, Validator.empty]
  | some value =>
    by_cases h : value ∈ placeholder_values <;>
      simp [h, Validator.addWarning, vappend, Validator.empty]

theorem validate_env_file_vappend (fs : FS) (v : Validator) :
    validate_env_file fs v = vappend v (validate_env_file fs Validator.empty) := by
  unfold validate_env_file
  cases h1 : fs.pathExists ".env" with
  | false =>
    cases h2 : fs.pathExists ".env.template" <;>
      simp [Validator.addWarning, Validator.addError, vappend, Validator.empty]
  | true =>
    cases h3 : fs.readText ".env" with
    | exc e =>
      simp [Validator.addError, Validator.addInfo, vappend, Validator.empty]
    | ok content =>
      have hF := foldl_vappend (envVarStep (parseEnvContent content))
        (envVarStep_vappend (parseEnvContent content)) required_vars
      simp only [Bool.not_true, Bool.false_eq_true, if_false]
      rw [hF (Validator.addInfo v "✓ .env file found"),
        hF (Validator.addInfo Validator.empty "✓ .env file found")]
      simp [Validator.addInfo, vappend, Validator.empty]

theorem validate_firebase_config_vappend (fs : FS) (v : Validator) :
    validate_firebase_config fs v = vappend v (validate_firebase_config fs Validator.empty) := by
  unfold validate_firebase_config
  cases h1 : fs.pathExists "app/google-services.json" with
  | false =>
    cases h2 : fs.pathExists "app/google-services.json.template" <;>
      simp [Validator.addWarning, vappend, Validator.empty]
  | true =>
    cases h3 : fs.readJson "app/google-services.json" with
    | decodeError =>
      simp [Validator.addError, Validator.addInfo, vappend, Validator.empty]
    | exc e =>
      simp [Validator.addWarning, Validator.addInfo, vappend, Validator.empty]
    | ok config =>
      cases h4 : firebaseStructure config with
      | error e =>
        simp [h4, Validator.addWarning, Validator.addInfo, vappend, Validator.empty]
      | ok msg =>
        cases msg <;>
          simp [h4, Validator.addWarning, Validator.addInfo, vappend, Validator.empty]

theorem presenceFold_vappend (fs : FS) (missingMsg : String → String) (missingIsError : Bool)
    (paths : List String) (v : Validator) :
    presenceFold fs missingMsg missingIsError paths v =
      vappend v (presenceFold fs missingMsg missingIsError paths Validator.empty) := by
  unfold presenceFold
  refine foldl_vappend _ (fun w p => ?_) paths v
  cases hp : fs.pathExists p with
  | true => simp [Validator.addInfo, vappend, Validator.empty]
  | false =>
    cases missingIsError <;>
      simp [Validator.addError, Validator.addWarning, vappend, Validator.empty]

/-- The required-variable loop only appends warnings, one per variable as
described by `envWarnOf`. -/
theorem envfold_eq (env_vars : List (String × String)) :
    ∀ (l : List String) (v : Validator),
      l.foldl (envVarStep env_vars) v =
        { v with warnings := v.warnings ++ l.filterMap (envWarnOf env_vars) } := by
  intro l
  induction l with
  | nil => intro v; simp
  | cons var rest ih =>
    intro v
    simp only [List.foldl_cons, List.filterMap_cons]
    rw [ih (envVarStep env_vars v var)]
    unfold envVarStep envWarnOf
    cases hd : dictLookup env_vars var with
    | none => simp [Validator.addWarning]
    | some value =>
      by_cases h : value ∈ placeholder_values <;> simp [h, Validator.addWarning]

/-- A presence check over a list of paths that all exist appends exactly the
per-path info messages. -/
theorem presenceFold_all_found (fs : FS) (missingMsg : String → String) (missingIsError : Bool) :
    ∀ (paths : List String) (v : Validator),
      (∀ p ∈ paths, fs.pathExists p = true) →
      presenceFold fs missingMsg missingIsError paths v =
        { v with info := v.info ++ paths.map (fun p => "✓ " ++ p ++ " found") } := by
  intro paths
  induction paths with
  | nil => intro v h; simp [presenceFold]
  | cons p rest ih =>
    intro v h
    have hp : fs.pathExists p = true := h p (by simp)
    unfold presenceFold at ih ⊢
    simp only [List.foldl_cons, hp, if_true, List.map_cons]
    rw [ih _ (fun q hq => h q (by simp [hq]))]
    simp [Validator.addInfo]

/-- `validate_firebase_config` when the file exists and parses: the found
info message followed by whatever the structural block decides. -/
theorem validate_firebase_ok (fs : FS) (config : JValue) (v : Validator)
    (h1 : fs.pathExists "app/google-services.json" = true)
    (h2 : fs.readJson "app/google-services.json" = .ok config) :
    validate_firebase_config fs v =
      (match firebaseStructure config with
       | .ok (.infoProjectId pid) =>
         (v.addInfo "✓ google-services.json found").addInfo
           ("✓ Firebase project ID: " ++ pyStr pid)
       | .ok .warnPlaceholder =>
         (v.addInfo "✓ google-services.json found").addWarning
           "Firebase project_id appears to be a placeholder"
       | .ok .warnInvalidStructure =>
         (v.addInfo "✓ google-services.json found").addWarning
           "google-services.json has invalid structure"
       | .error e =>
         (v.addInfo "✓ google-services.json found").addWarning
           ("Could not validate google-services.json: " ++ e)) := by
  unfold validate_firebase_config
  rw [h1, h2]
  rfl

/-- The structural block when the top level is an object with both required
keys and an object under `project_info`: the placeholder test on the
(defaulted) `project_id` decides between the info and the warning. -/
theorem firebaseStructure_obj (fields pif : List (String × JValue))
    (hpi : jlookup fields "project_info" = some (.obj pif))
    (hcl : (jlookup fields "client").isSome = true) :
    firebaseStructure (.obj fields) =
      .ok (if truthy ((jlookup pif "project_id").getD (.str "")) &&
              !pyEqStr ((jlookup pif "project_id").getD (.str "")) "aalay-student-housing" then
             .infoProjectId ((jlookup pif "project_id").getD (.str ""))
           else .warnPlaceholder) := by
  cases hc : truthy ((jlookup pif "project_id").getD (.str "")) &&
      !pyEqStr ((jlookup pif "project_id").getD (.str "")) "aalay-student-housing" <;>
    simp [firebaseStructure, pyIn, hpi, hcl, pySubscript, pyGet, Bind.bind,
      Except.bind, Pure.pure, Except.pure, hc]

/-- The structural block when the top level does not carry both required keys
(in particular when it is not an object at all): either the invalid-structure
outcome or an exception. -/
theorem firebaseStructure_not_both (config : JValue)
    (h : ¬(hasKey config "project_info" = true ∧ hasKey config "client" = true)) :
    firebaseStructure config = .ok .warnInvalidStructure ∨
      ∃ e, firebaseStructure config = .error e := by
  cases config with
  | null => right; exact ⟨_, rfl⟩
  | bool b => right; exact ⟨_, rfl⟩
  | num n => right; exact ⟨_, rfl⟩
  | str s =>
    cases h1 : substrList "project_info".data s.data with
    | false =>
      left
      simp [firebaseStructure, pyIn, h1, Bind.bind, Except.bind, Pure.pure, Except.pure]
    | true =>
      cases h2 : substrList "client".data s.data with
      | false =>
        left
        simp [firebaseStructure, pyIn, h1, h2, Bind.bind, Except.bind, Pure.pure, Except.pure]
      | true =>
        right
        refine ⟨"indices must be integers", ?_⟩
        simp [firebaseStructure, pyIn, h1, h2, pySubscript, Bind.bind, Except.bind,
          Pure.pure, Except.pure]
  | arr xs =>
    cases h1 : xs.any (fun x => pyEqStr x "project_info") with
    | false =>
      left
      simp [firebaseStructure, pyIn, h1, Bind.bind, Except.bind, Pure.pure, Except.pure]
    | true =>
      cases h2 : xs.any (fun x => pyEqStr x "client") with
      | false =>
        left
        simp [firebaseStructure, pyIn, h1, h2, Bind.bind, Except.bind, Pure.pure, Except.pure]
      | true =>
        right
        refine ⟨"indices must be integers", ?_⟩
        simp [firebaseStructure, pyIn, h1, h2, pySubscript, Bind.bind, Except.bind,
          Pure.pure, Except.pure]
  | obj fields =>
    left
    cases h1 : (jlookup fields "project_info").isSome with
    | false =>
      simp [firebaseStructure, pyIn, h1, Bind.bind, Except.bind, Pure.pure, Except.pure]
    | true =>
      cases h2 : (jlookup fields "client").isSome with
      | false =>
        simp [firebaseStructure, pyIn, h1, h2, Bind.bind, Except.bind, Pure.pure, Except.pure]
      | true => exact absurd ⟨h1, h2⟩ h

/-! ### The claims -/

/-- Claim C1: the process exit code is 1 iff at least one error-level message
was recorded across all checks, and 0 whenever zero errors were recorded,
regardless of warnings. -/
theorem claim_C1 (fs : FS) :
    exit_code fs = (if (validate_all fs).errors = [] then 0 else 1) := by
  unfold exit_code validate_all_result
  cases h : (validate_all fs).errors with
  | nil => simp [h]
  | cons a l => simp [h]

/-- Claim C2: with the env file absent, the env check emits exactly one
warning when the template exists and exactly one error when it does not, and
performs no per-variable checks. -/
theorem claim_C2 (fs : FS) (h : fs.pathExists ".env" = false) :
    validate_env_file fs Validator.empty =
      (if fs.pathExists ".env.template" = true then
        { errors := [],
          warnings := ["No .env file found. Copy .env.template to .env and fill in your values."],
          info := [] }
      else
        { errors := ["Neither .env nor .env.template file found!"], warnings := [],
          info := [] }) := by
  unfold validate_env_file
  rw [h]
  cases h2 : fs.pathExists ".env.template" <;>
    simp [Validator.addWarning, Validator.addError, Validator.empty]

theorem claim_C2_witness :
    validate_env_file fsOnlyTemplate Validator.empty =
      { errors := [],
        warnings := ["No .env file found. Copy .env.template to .env and fill in your values."],
        info := [] } ∧
    validate_env_file fsEmptyDir Validator.empty =
      { errors := ["Neither .env nor .env.template file found!"], warnings := [],
        info := [] } := by
  constructor
  · have h := claim_C2 fsOnlyTemplate rfl
    simpa using h
  · have h := claim_C2 fsEmptyDir rfl
    simpa using h

/-- Claim C4: an existing credential file with invalid JSON yields exactly one
error and no structural messages. -/
theorem claim_C4 (fs : FS)
    (h1 : fs.pathExists "app/google-services.json" = true)
    (h2 : fs.readJson "app/google-services.json" = .decodeError) :
    validate_firebase_config fs Validator.empty =
      { errors := ["google-services.json is not valid JSON"], warnings := [],
        info := ["✓ google-services.json found"] } := by
  unfold validate_firebase_config
  rw [h1, h2]
  simp [Validator.addInfo, Validator.addError, Validator.empty]

theorem claim_C4_witness :
    validate_firebase_config fsBadJson Validator.empty =
      { errors := ["google-services.json is not valid JSON"], warnings := [],
        info := ["✓ google-services.json found"] } :=
  claim_C4 fsBadJson rfl rfl

/-- Claim C3: with the env file present and readable, the warnings of the env
check are exactly one per required variable that is missing (naming the
variable) or carries a placeholder value, and none for a variable with any
other value — the content of `envWarnOf`. -/
theorem claim_C3 (fs : FS) (content : String)
    (h1 : fs.pathExists ".env" = true)
    (h2 : fs.readText ".env" = .ok content) :
    (validate_env_file fs Validator.empty).warnings =
      required_vars.filterMap (envWarnOf (parseEnvContent content)) := by
  unfold validate_env_file
  rw [h1, h2]
  simp only [Bool.not_true, Bool.false_eq_true, if_false]
  rw [envfold_eq (parseEnvContent content) required_vars]
  simp [Validator.addInfo, Validator.empty]

theorem claim_C3_witness :
    (validate_env_file fsEnvMixed Validator.empty).warnings =
      ["Variable API_BASE_URL_PROD has placeholder value",
       "Required variable FIREBASE_PROJECT_ID_PROD not found in .env"] := by
  have h := claim_C3 fsEnvMixed
    "API_BASE_URL_PROD=placeholder\nMAPBOX_ACCESS_TOKEN_PROD=pk.live.1234" rfl rfl
  rw [h]
  decide

/-- Claim C5: an existing credential file with valid JSON whose top level does
not carry both `project_info` and `client` keys yields exactly one warning
and no error. -/
theorem claim_C5 (fs : FS) (config : JValue)
    (h1 : fs.pathExists "app/google-services.json" = true)
    (h2 : fs.readJson "app/google-services.json" = .ok config)
    (h3 : ¬(hasKey config "project_info" = true ∧ hasKey config "client" = true)) :
    (validate_firebase_config fs Validator.empty).warnings.length = 1 ∧
    (validate_firebase_config fs Validator.empty).errors = [] := by
  rw [validate_firebase_ok fs config Validator.empty h1 h2]
  rcases firebaseStructure_not_both config h3 with h4 | ⟨e, h4⟩ <;>
    simp [h4, Validator.addInfo, Validator.addWarning, Validator.empty]

theorem claim_C5_witness :
    (validate_firebase_config fsNoProjectInfo Validator.empty).warnings.length = 1 ∧
    (validate_firebase_config fsNoProjectInfo Validator.empty).errors = [] :=
  claim_C5 fsNoProjectInfo (.obj [("client", .null)]) rfl rfl (by decide)

/-- Counterexample to claim C6 as stated: both required keys are present and
the discovered project id `""` differs from the default
`aalay-student-housing`, yet the check emits the placeholder warning and no
info message carrying the id. -/
theorem claim_C6_counterexample :
    pyGet (JValue.obj []) "project_id" (.str "") = .ok (.str "") ∧
    ("" : String) ≠ "aalay-student-housing" ∧
    validate_firebase_config fsEmptyProjectInfo Validator.empty =
      { errors := [], warnings := ["Firebase project_id appears to be a placeholder"],
        info := ["✓ google-services.json found"] } := by
  refine ⟨rfl, by decide, ?_⟩
  decide

/-- Claim C6 (amended): when both top-level keys are present and
`project_info` is an object, the check emits exactly one of the info message
carrying the discovered id or the placeholder warning, and the info message
appears if and only if the id is truthy (e.g. a non-empty string) and differs
from the default `aalay-student-housing`. -/
theorem claim_C6_amended (fs : FS) (fields pif : List (String × JValue))
    (h1 : fs.pathExists "app/google-services.json" = true)
    (h2 : fs.readJson "app/google-services.json" = .ok (.obj fields))
    (hpi : jlookup fields "project_info" = some (.obj pif))
    (hcl : (jlookup fields "client").isSome = true) :
    validate_firebase_config fs Validator.empty =
      (if truthy ((jlookup pif "project_id").getD (.str "")) &&
          !pyEqStr ((jlookup pif "project_id").getD (.str "")) "aalay-student-housing" then
        { errors := [], warnings := [],
          info := ["✓ google-services.json found",
            "✓ Firebase project ID: " ++ pyStr ((jlookup pif "project_id").getD (.str ""))] }
      else
        { errors := [], warnings := ["Firebase project_id appears to be a placeholder"],
          info := ["✓ google-services.json found"] }) := by
  rw [validate_firebase_ok fs (.obj fields) Validator.empty h1 h2,
    firebaseStructure_obj fields pif hpi hcl]
  cases hc : truthy ((jlookup pif "project_id").getD (.str "")) &&
      !pyEqStr ((jlookup pif "project_id").getD (.str "")) "aalay-student-housing" <;>
    simp [hc, Validator.addInfo, Validator.addWarning, Validator.empty]

theorem claim_C6_amended_witness :
    validate_firebase_config fsRealProject Validator.empty =
      { errors := [], warnings := [],
        info := ["✓ google-services.json found", "✓ Firebase project ID: prod-app-1234"] } := by
  have h := claim_C6_amended fsRealProject
    [("project_info", .obj [("project_id", .str "prod-app-1234")]), ("client", .arr [])]
    [("project_id", .str "prod-app-1234")] rfl rfl rfl rfl
  rw [h]
  decide

/-- Claim C10: with both top-level keys present, an empty-string project id —
including the case where `project_info` has no `project_id` key, which the
`.get` default turns into `""` — is treated as a placeholder and draws the
placeholder warning even though `""` is not the known default id. -/
theorem claim_C10 (fs : FS) (fields pif : List (String × JValue))
    (h1 : fs.pathExists "app/google-services.json" = true)
    (h2 : fs.readJson "app/google-services.json" = .ok (.obj fields))
    (hpi : jlookup fields "project_info" = some (.obj pif))
    (hcl : (jlookup fields "client").isSome = true)
    (hpid : (jlookup pif "project_id").getD (.str "") = .str "") :
    validate_firebase_config fs Validator.empty =
      { errors := [], warnings := ["Firebase project_id appears to be a placeholder"],
        info := ["✓ google-services.json found"] } := by
  rw [validate_firebase_ok fs (.obj fields) Validator.empty h1 h2,
    firebaseStructure_obj fields pif hpi hcl, hpid]
  rfl

/-- The runner's output is the bucket-wise concatenation of what each of the
seven checks produces on a fresh accumulator. -/
theorem validate_all_decompose (fs : FS) :
    validate_all fs =
      vappend (validate_env_file fs Validator.empty)
        (vappend (validate_firebase_config fs Validator.empty)
          (vappend (validate_build_files fs Validator.empty)
            (vappend (validate_security_files fs Validator.empty)
              (vappend (validate_source_files fs Validator.empty)
                (vappend (validate_documentation fs Validator.empty)
                  (validate_ci_cd fs Validator.empty)))))) := by
  have hci : ∀ v, validate_ci_cd fs v = vappend v (validate_ci_cd fs Validator.empty) :=
    fun v => presenceFold_vappend fs _ _ _ v
  have hdoc : ∀ v, validate_documentation fs v =
      vappend v (validate_documentation fs Validator.empty) :=
    fun v => presenceFold_vappend fs _ _ _ v
  have hsrc : ∀ v, validate_source_files fs v =
      vappend v (validate_source_files fs Validator.empty) :=
    fun v => presenceFold_vappend fs _ _ _ v
  have hsec : ∀ v, validate_security_files fs v =
      vappend v (validate_security_files fs Validator.empty) :=
    fun v => presenceFold_vappend fs _ _ _ v
  have hbuild : ∀ v, validate_build_files fs v =
      vappend v (validate_build_files fs Validator.empty) :=
    fun v => presenceFold_vappend fs _ _ _ v
  unfold validate_all
  rw [hci, hdoc, hsrc, hsec, hbuild, validate_firebase_config_vappend fs]
  simp [vappend_assoc]

/-- Claim C7: all seven checks run and contribute on every input — the
aggregate is exactly the concatenation of the per-check messages, each check
only appends to the accumulator it receives, and a read failure inside the
env or credential check is converted into a single error or warning message
rather than escaping (the embedding is total: every read outcome, including
the exception outcomes, is mapped to messages). -/
theorem claim_C7 (fs : FS) :
    ((validate_all fs).errors =
      (validate_env_file fs Validator.empty).errors ++
      (validate_firebase_config fs Validator.empty).errors ++
      (validate_build_files fs Validator.empty).errors ++
      (validate_security_files fs Validator.empty).errors ++
      (validate_source_files fs Validator.empty).errors ++
      (validate_documentation fs Validator.empty).errors ++
      (validate_ci_cd fs Validator.empty).errors) ∧
    ((validate_all fs).warnings =
      (validate_env_file fs Validator.empty).warnings ++
      (validate_firebase_config fs Validator.empty).warnings ++
      (validate_build_files fs Validator.empty).warnings ++
      (validate_security_files fs Validator.empty).warnings ++
      (validate_source_files fs Validator.empty).warnings ++
      (validate_documentation fs Validator.empty).warnings ++
      (validate_ci_cd fs Validator.empty).warnings) ∧
    ((validate_all fs).info =
      (validate_env_file fs Validator.empty).info ++
      (validate_firebase_config fs Validator.empty).info ++
      (validate_build_files fs Validator.empty).info ++
      (validate_security_files fs Validator.empty).info ++
      (validate_source_files fs Validator.empty).info ++
      (validate_documentation fs Validator.empty).info ++
      (validate_ci_cd fs Validator.empty).info) ∧
    (∀ (v : Validator) (e : String),
      fs.pathExists ".env" = true → fs.readText ".env" = .exc e →
      validate_env_file fs v =
        (v.addInfo "✓ .env file found").addError ("Error reading .env file: " ++ e)) ∧
    (∀ (v : Validator) (e : String),
      fs.pathExists "app/google-services.json" = true →
      fs.readJson "app/google-services.json" = .exc e →
      validate_firebase_config fs v =
        (v.addInfo "✓ google-services.json found").addWarning
          ("Could not validate google-services.json: " ++ e)) := by
  refine ⟨?_, ?_, ?_, ?_, ?_⟩
  · rw [validate_all_decompose fs]; simp [vappend]
  · rw [validate_all_decompose fs]; simp [vappend]
  · rw [validate_all_decompose fs]; simp [vappend]
  · intro v e h1 h2
    unfold validate_env_file
    rw [h1, h2]
    rfl
  · intro v e h1 h2
    unfold validate_firebase_config
    rw [h1, h2]
    rfl

theorem claim_C7_witness :
    validate_env_file fsUnreadable Validator.empty =
      (Validator.empty.addInfo "✓ .env file found").addError
        ("Error reading .env file: " ++ "disk failure") ∧
    validate_firebase_config fsUnreadable Validator.empty =
      (Validator.empty.addInfo "✓ google-services.json found").addWarning
        ("Could not validate google-services.json: " ++ "permission denied") :=
  ⟨(claim_C7 fsUnreadable).2.2.2.1 Validator.empty "disk failure" rfl rfl,
   (claim_C7 fsUnreadable).2.2.2.2 Validator.empty "permission denied" rfl rfl⟩

theorem claim_C10_witness :
    validate_firebase_config fsBlankProjectId Validator.empty =
      { errors := [], warnings := ["Firebase project_id appears to be a placeholder"],
        info := ["✓ google-services.json found"] } :=
  claim_C10 fsBlankProjectId
    [("project_info", .obj [("project_id", .str "")]), ("client", .obj [])]
    [("project_id", .str "")] rfl rfl rfl rfl rfl

/-- Splitting at the first separator of `k ++ sep ++ v` recovers `(k, v)`
when `k` is separator-free. -/
theorem splitFirstAux_append (v : List Char) :
    ∀ (k : List Char), k.contains '=' = false →
      splitFirstAux '=' (k ++ '=' :: v) = some (k, v) := by
  intro k
  induction k with
  | nil => intro h; simp [splitFirstAux]
  | cons c cs ih =>
    intro h
    simp only [List.contains_cons, Bool.or_eq_false_iff] at h
    have hc : (c == '=') = false := by
      have h1 := h.1
      simp only [beq_eq_false_iff_ne] at h1 ⊢
      exact fun e => h1 e.symm
    simp [splitFirstAux, hc, ih h.2]

/-- Python dict lookup after assignment: the assigned key now maps to the new
value and every other key is untouched (so on repeated assignments the last
one wins). -/
theorem dictLookup_dictInsert (k v k2 : String) :
    ∀ d, dictLookup (dictInsert d k v) k2 =
      if k2 = k then some v else dictLookup d k2 := by
  intro d
  induction d with
  | nil =>
    by_cases h : k2 = k
    · subst h
      simp [dictInsert, dictLookup]
    · simp [dictInsert, dictLookup, h, Ne.symm h]
  | cons p tl ih =>
    by_cases hp : p.1 = k
    · by_cases h : k2 = k
      · subst h
        simp [dictInsert, dictLookup, hp]
      · have hpq : p.1 ≠ k2 := by rw [hp]; exact Ne.symm h
        simp [dictInsert, dictLookup, hp, h, Ne.symm h, hpq]
    · by_cases hq : p.1 = k2
      · have h : ¬k2 = k := fun hh => hp (hq.trans hh)
        simp [dictInsert, dictLookup, hp, hq, h]
      · simp only [dictInsert, dictLookup] at ih ⊢
        simp [hp, hq, ih]

/-- Claim C9: a line contributes an entry to the env map only when, after
stripping, it is non-empty, is not a `#` comment, and contains `=`; a
contributing line is split at its first `=` (values may contain further `=`),
key and value are stripped; and a later assignment to the same key overwrites
the earlier one (last line wins) while leaving other keys untouched. -/
theorem claim_C9 :
    (∀ (d : List (String × String)) (raw : String),
      ((pyStrip raw).data.isEmpty = true ∨ pyStartsWith (pyStrip raw) "#" = true ∨
        containsChar (pyStrip raw) '=' = false) →
      parseEnvLine d raw = d) ∧
    (∀ (d : List (String × String)) (raw k v : String),
      containsChar k '=' = false →
      pyStartsWith (pyStrip raw) "#" = false →
      pyStrip raw = k ++ "=" ++ v →
      parseEnvLine d raw = dictInsert d (pyStrip k) (pyStrip v)) ∧
    (∀ (d : List (String × String)) (k v k2 : String),
      dictLookup (dictInsert d k v) k2 = if k2 = k then some v else dictLookup d k2) ∧
    (∀ content : String,
      parseEnvContent content = (splitLines content).foldl parseEnvLine []) := by
  refine ⟨?_, ?_, fun d k v k2 => dictLookup_dictInsert k v k2 d, fun content => rfl⟩
  · intro d raw h
    unfold parseEnvLine
    rcases h with h | h | h <;> simp [h]
  · intro d raw k v hk hsh heq
    have hdata : (k ++ "=" ++ v).data = k.data ++ '=' :: v.data := by
      simp [String.data_append]
    have hne : (k ++ "=" ++ v).data.isEmpty = false := by
      simp [hdata]
    have hct : containsChar (k ++ "=" ++ v) '=' = true := by
      simp [containsChar, hdata]
    have hsplit : pySplit1 '=' (k ++ "=" ++ v) = (k, v) := by
      unfold pySplit1
      rw [hdata, splitFirstAux_append v.data k.data hk]
    unfold parseEnvLine
    rw [heq] at hsh ⊢
    simp [hne, hsh, hct, hsplit]

theorem claim_C9_witness :
    parseEnvLine [("X", "1")] "# comment = c" = [("X", "1")] ∧
    parseEnvLine [] " KEY = a=b " = [("KEY", "a=b")] ∧
    dictLookup (dictInsert [("K", "old")] "K" "new") "K" = some "new" := by
  obtain ⟨ha, hb, hc, _⟩ := claim_C9
  refine ⟨ha [("X", "1")] "# comment = c" (Or.inr (Or.inl (by decide))), ?_, ?_⟩
  · have h := hb [] " KEY = a=b " "KEY " " a=b" (by decide) (by decide) (by decide)
    rw [h]
    decide
  · have h := hc [("K", "old")] "K" "new" "K"
    rw [h]
    decide

/-- Claim C8: in a directory where every listed file is present, the
credential file is valid JSON with both top-level keys and a real (non-empty,
non-default) project id, and all three required env vars carry distinct
non-placeholder values, the run records zero errors and zero warnings, exits
with code 0, and reports a success rate of exactly 100%. -/
theorem claim_C8 (fs : FS) (content : String) (fields pif : List (String × JValue))
    (pid : String)
    (hex : ∀ p ∈ all_checked_paths, fs.pathExists p = true)
    (hread : fs.readText ".env" = .ok content)
    (henv : ∀ var ∈ required_vars, ∃ s,
      dictLookup (parseEnvContent content) var = some s ∧
      placeholder_values.contains s = false)
    (hdist : (required_vars.filterMap (dictLookup (parseEnvContent content))).Nodup)
    (hjson : fs.readJson "app/google-services.json" = .ok (.obj fields))
    (hpi : jlookup fields "project_info" = some (.obj pif))
    (hcl : (jlookup fields "client").isSome = true)
    (hpid : (jlookup pif "project_id").getD (.str "") = .str pid)
    (hpid1 : pid ≠ "")
    (hpid2 : pid ≠ "aalay-student-housing") :
    (validate_all fs).errors = [] ∧ (validate_all fs).warnings = [] ∧
    exit_code fs = 0 ∧ success_rate (validate_all fs) = 100 := by
  have h1 : fs.pathExists ".env" = true := hex ".env" (by simp [all_checked_paths])
  have h2 : fs.pathExists "app/google-services.json" = true :=
    hex "app/google-services.json" (by simp [all_checked_paths])
  have hE1 : validate_env_file fs Validator.empty =
      ⟨[], [], ["✓ .env file found",
        "✓ Found " ++ toString (parseEnvContent content).length ++
          " environment variables"]⟩ := by
    unfold validate_env_file
    rw [h1, hread]
    simp only [Bool.not_true, Bool.false_eq_true, if_false]
    rw [envfold_eq (parseEnvContent content) required_vars]
    have hwarn : required_vars.filterMap (envWarnOf (parseEnvContent content)) = [] := by
      rw [List.filterMap_eq_nil_iff]
      intro var hv
      obtain ⟨s, hs, hsp⟩ := henv var hv
      have hsp2 : s ∉ placeholder_values := by simpa using hsp
      simp [envWarnOf, hs, hsp2]
    simp [hwarn, Validator.addInfo, Validator.empty]
  have ht : truthy (.str pid) = true := by
    have : pid.data ≠ [] := by
      intro hnil
      apply hpid1
      cases pid
      simp at hnil
      simp [hnil]
    simp [truthy, this]
  have hne : pyEqStr (.str pid) "aalay-student-housing" = false := by
    simp [pyEqStr]
    exact hpid2
  have hE2 : validate_firebase_config fs Validator.empty =
      ⟨[], [], ["✓ google-services.json found", "✓ Firebase project ID: " ++ pid]⟩ := by
    rw [validate_firebase_ok fs (.obj fields) Validator.empty h2 hjson,
      firebaseStructure_obj fields pif hpi hcl, hpid]
    simp [ht, hne, Validator.addInfo, Validator.empty, pyStr]
  have hE3 : validate_build_files fs Validator.empty =
      ⟨[], [], build_files.map (fun p => "✓ " ++ p ++ " found")⟩ := by
    unfold validate_build_files
    rw [presenceFold_all_found fs _ true build_files Validator.empty
      (fun p hp => hex p (by simp [all_checked_paths]; tauto))]
    simp [Validator.empty]
  have hE4 : validate_security_files fs Validator.empty =
      ⟨[], [], security_files.map (fun p => "✓ " ++ p ++ " found")⟩ := by
    unfold validate_security_files
    rw [presenceFold_all_found fs _ false security_files Validator.empty
      (fun p hp => hex p (by simp [all_checked_paths]; tauto))]
    simp [Validator.empty]
  have hE5 : validate_source_files fs Validator.empty =
      ⟨[], [], critical_files.map (fun p => "✓ " ++ p ++ " found")⟩ := by
    unfold validate_source_files
    rw [presenceFold_all_found fs _ true critical_files Validator.empty
      (fun p hp => hex p (by simp [all_checked_paths]; tauto))]
    simp [Validator.empty]
  have hE6 : validate_documentation fs Validator.empty =
      ⟨[], [], doc_files.map (fun p => "✓ " ++ p ++ " found")⟩ := by
    unfold validate_documentation
    rw [presenceFold_all_found fs _ false doc_files Validator.empty
      (fun p hp => hex p (by simp [all_checked_paths]; tauto))]
    simp [Validator.empty]
  have hE7 : validate_ci_cd fs Validator.empty =
      ⟨[], [], ci_files.map (fun p => "✓ " ++ p ++ " found")⟩ := by
    unfold validate_ci_cd
    rw [presenceFold_all_found fs _ false ci_files Validator.empty
      (fun p hp => hex p (by simp [all_checked_paths]; tauto))]
    simp [Validator.empty]
  have hall : validate_all fs =
      ⟨[], [],
        ["✓ .env file found",
         "✓ Found " ++ toString (parseEnvContent content).length ++ " environment variables",
         "✓ google-services.json found", "✓ Firebase project ID: " ++ pid] ++
        build_files.map (fun p => "✓ " ++ p ++ " found") ++
        security_files.map (fun p => "✓ " ++ p ++ " found") ++
        critical_files.map (fun p => "✓ " ++ p ++ " found") ++
        doc_files.map (fun p => "✓ " ++ p ++ " found") ++
        ci_files.map (fun p => "✓ " ++ p ++ " found")⟩ := by
    rw [validate_all_decompose fs, hE1, hE2, hE3, hE4, hE5, hE6, hE7]
    simp [vappend]
  refine ⟨by rw [hall], by rw [hall], ?_, ?_⟩
  · unfold exit_code validate_all_result
    rw [hall]
    rfl
  · rw [hall]
    simp [success_rate, build_files, security_files, critical_files, doc_files, ci_files]

theorem claim_C8_witness :
    (validate_all fsAllGood).errors = [] ∧ (validate_all fsAllGood).warnings = [] ∧
    exit_code fsAllGood = 0 ∧ success_rate (validate_all fsAllGood) = 100 :=
  claim_C8 fsAllGood
    "API_BASE_URL_PROD=https://api.example.com\nMAPBOX_ACCESS_TOKEN_PROD=pk.live.1234\nFIREBASE_PROJECT_ID_PROD=prod-app-1234"
    [("project_info", .obj [("project_id", .str "prod-app-1234")]), ("client", .arr [])]
    [("project_id", .str "prod-app-1234")] "prod-app-1234"
    (by decide) rfl (by decide) (by decide) rfl rfl rfl rfl (by decide) (by decide)

end Aalaya
